import Mathlib

/-!
Verification of the horilla-crm front-end UI glue against its design spec.

Two source files are embedded:

* `horilla_keys/static/horilla_keys/assets/js/short_key.js` — the keyboard
  shortcut overlay: a catalog of shortcut definitions fetched from the server,
  a small state machine (`window.shortcutKeysState`) driven by keydown/keyup
  events, a hold timer that shows the overlay, and navigation on a key match.
* `static/assets/js/horilla_charts.js` — the `EChartsConfig` object: the
  `getChartOption` dispatch table and the `getDynamicColors` palette generator.

JavaScript strings are embedded as Lean `String`s; `toUpperCase`/`toLowerCase`
are embedded as per-character ASCII case conversion (`Char.toUpper` /
`Char.toLower` mapped over the character list), matching the JS behaviour on
the ASCII data this code handles.  Nullable JS values are embedded as `Option`.
The single-threaded event-loop execution is embedded as a step function over
explicit event traces; `setTimeout`/`clearTimeout` are embedded by recording
the status of the `modifierHoldTimer` variable (`null` / holding a pending
timer / holding an already-fired timer id) and by a `timerFires` trace event
that is a no-op unless a timer is actually pending.
-/

/-- ASCII uppercasing of a string, character by character: the embedding of
JavaScript `String.prototype.toUpperCase` as used in `short_key.js`. -/
def jsUpper (s : String) : String := ⟨s.data.map Char.toUpper⟩

/-- ASCII lowercasing of a string, character by character: the embedding of
JavaScript `String.prototype.toLowerCase` as used in `short_key.js`. -/
def jsLower (s : String) : String := ⟨s.data.map Char.toLower⟩

namespace ShortKey

/-- A raw shortcut record as delivered by the `/shortkeys/short-key-data/`
endpoint (`data.shortcuts` elements in `short_key.js`).  `section` and
`description` may be absent (`null`), hence `Option`; the field `section` is
spelled `section_` because `section` is a Lean keyword. -/
structure RawShortcut where
  key : String
  command : String
  title : String
  section_ : Option String
  description : Option String
  page : String
deriving DecidableEq

/-- A normalized catalog entry as stored in `window.shortcutKeysCache`
(`fetchShortcutKeys` / `refreshShortcutKeys`, `short_key.js` lines 106-115). -/
structure ShortcutDef where
  key : String
  command : String
  displayCommand : String
  displaySymbol : String
  title : String
  section_ : Option String
  description : String
  page : String
deriving DecidableEq

/-- The per-entry normalization performed by `fetchShortcutKeys` and
`refreshShortcutKeys` (`short_key.js` lines 106-115 and 226-235):
`key` is uppercased, `command` lowercased, the display label and symbol are
platform dependent (`isMac`), and a missing description becomes `''`. -/
def normalizeShortcut (isMac : Bool) (sk : RawShortcut) : ShortcutDef :=
  { key := jsUpper sk.key
    command := jsLower sk.command
    displayCommand :=
      if jsLower sk.command = "alt" ∧ isMac = true then "OPTION" else jsUpper sk.command
    displaySymbol :=
      if jsLower sk.command = "alt" ∧ isMac = true then "⌥" else jsUpper sk.command
    title := sk.title
    section_ := sk.section_
    description := sk.description.getD ("")
    page := sk.page }

/-- The whole-catalog normalization `data.shortcuts.map(sk => ...)`. -/
def normalizeCatalog (isMac : Bool) (raws : List RawShortcut) : List ShortcutDef :=
  raws.map (normalizeShortcut isMac)

/-- The lookup performed by the keydown handler (`short_key.js` lines 177 and
184-186): the pressed key is uppercased and the cache is scanned for the first
entry with `sk.key === pressedKey && sk.command.toLowerCase() === 'alt'`. -/
def lookup (cache : List ShortcutDef) (k : String) : Option ShortcutDef :=
  cache.find? fun sk => sk.key == jsUpper k && jsLower sk.command == "alt"

/-- Case-insensitive key equality (the spec's notion for catalog matching). -/
def ciEqKey (a b : String) : Prop := jsUpper a = jsUpper b

/-- The value of `window.shortcutKeysCache` set at `short_key.js` line 69,
before the initial fetch completes: the empty catalog. -/
def initialShortcutKeysCache : List ShortcutDef := []

/-- The catalog value that `fetchShortcutKeys` passes to its callback
(`short_key.js` lines 100-123): the normalized server data on success, `[]` on
error (the error is only logged). -/
def fetchShortcutKeysResult (isMac : Bool)
    (resp : Except String (List RawShortcut)) : List ShortcutDef :=
  match resp with
  | Except.ok d => normalizeCatalog isMac d
  | Except.error _ => []

/-- The value of `window.shortcutKeysCache` after the initial fetch completes:
the callback at `short_key.js` line 157-158 stores exactly the list it is
handed by `fetchShortcutKeys`. -/
def cacheAfterInitFetch (isMac : Bool)
    (resp : Except String (List RawShortcut)) : List ShortcutDef :=
  fetchShortcutKeysResult isMac resp

/-- `refreshShortcutKeys` (`short_key.js` lines 219-241): on success the cache
is replaced wholesale by the normalized response; on error the handler only
logs and the cache keeps its previous value `prev`. -/
def refreshShortcutKeys (isMac : Bool) (prev : List ShortcutDef)
    (resp : Except String (List RawShortcut)) : List ShortcutDef :=
  match resp with
  | Except.ok d => normalizeCatalog isMac d
  | Except.error _ => prev

/-- The navigation target built on a key match (`short_key.js` lines 197-201):
the URL is constructed from `match.page`, and `section` is set as a query
parameter exactly when `match.section` is truthy (present and non-empty). -/
structure NavTarget where
  page : String
  sectionParam : Option String
deriving DecidableEq

/-- `new URL(match.page, origin)` plus the conditional
`url.searchParams.set("section", match.section)` guarded by the truthiness of
`match.section`. -/
def mkNavTarget (m : ShortcutDef) : NavTarget :=
  { page := m.page
    sectionParam :=
      match m.section_ with
      | some s => if s = "" then none else some s
      | none => none }

/-- Status of the JS variable `window.shortcutKeysState.modifierHoldTimer`:
`null`, holding the id of a pending (not yet fired) timer, or holding the id
of a timer that already fired (`showShortcutModal` never nulls the variable). -/
inductive TimerVar where
  | null
  | pending
  | fired
deriving DecidableEq

/-- The mutable state `window.shortcutKeysState` of `short_key.js` lines 2-6. -/
structure KState where
  modalShown : Bool
  activeModifier : Option String
  timerVar : TimerVar
deriving DecidableEq

/-- The initial state (`short_key.js` lines 2-6). -/
def initState : KState :=
  { modalShown := false, activeModifier := none, timerVar := TimerVar.null }

/-- Observable effects of a handler invocation. -/
inductive Effect where
  | armTimer
  | showOverlay (keys : List ShortcutDef)
  | preventDefault
  | navigate (target : NavTarget)
deriving DecidableEq

/-- The `if (window.shortcutKeysState.modifierHoldTimer) { clearTimeout(...);
... = null; }` pattern that appears in `closeShortcutModal`, the observer
reset and both key handlers. -/
def clearHoldTimer (s : KState) : KState :=
  if s.timerVar ≠ TimerVar.null then { s with timerVar := TimerVar.null } else s

/-- `closeShortcutModal` (`short_key.js` lines 8-28): resets `modalShown` and
`activeModifier` unconditionally and clears the timer variable if non-null.
(The delayed `modal.addClass('hidden')` only re-triggers the observer reset,
which is idempotent on this state.) -/
def closeShortcutModal (s : KState) : KState :=
  clearHoldTimer { s with modalShown := false, activeModifier := none }

/-- The MutationObserver reset (`short_key.js` lines 35-52), run whenever the
modal element's class list changes such that it is hidden: resets
`modalShown`, `activeModifier` and clears the timer variable if non-null. -/
def observerReset (s : KState) : KState :=
  clearHoldTimer { s with modalShown := false, activeModifier := none }

/-- The `keydown.shortcutKeys` handler (`short_key.js` lines 160-204).
`cache` is `window.shortcutKeysCache`; `altKey`/`key` come from the event;
`focusInText` is the jQuery check `$("input:focus, textarea:focus,
select:focus").length` being non-zero. -/
def keydownStep (cache : List ShortcutDef) (s : KState)
    (altKey : Bool) (key : String) (focusInText : Bool) : KState × List Effect :=
  if altKey = true ∧ s.activeModifier = none then
    let s1 : KState := { s with activeModifier := some ("alt") }
    if focusInText = true then (s1, [])
    else if s1.modalShown = false ∧ s1.timerVar = TimerVar.null then
      ({ s1 with timerVar := TimerVar.pending }, [Effect.armTimer])
    else (s1, [])
  else if s.activeModifier ≠ none ∧ altKey = true then
    let s1 : KState := clearHoldTimer s
    match lookup cache key with
    | some m =>
        if focusInText = true then (s1, [Effect.preventDefault])
        else (closeShortcutModal s1,
              [Effect.preventDefault, Effect.navigate (mkNavTarget m)])
    | none => (s1, [])
  else (s, [])

/-- The `keyup.shortcutKeys` handler (`short_key.js` lines 206-215). -/
def keyupStep (s : KState) (altKey : Bool) : KState × List Effect :=
  if altKey = false ∧ s.activeModifier = some ("alt") then
    ({ modalShown := s.modalShown, activeModifier := none, timerVar := TimerVar.null }, [])
  else (s, [])

/-- The hold timer firing (`short_key.js` lines 169-171): if the armed timer
is still pending it runs `showShortcutModal(window.shortcutKeysCache)`, which
sets `modalShown := true` (lines 125-153) but never nulls the
`modifierHoldTimer` variable, leaving a stale (fired) timer id in it. -/
def timerFiresStep (cache : List ShortcutDef) (s : KState) : KState × List Effect :=
  if s.timerVar = TimerVar.pending then
    ({ s with modalShown := true, timerVar := TimerVar.fired },
     [Effect.showOverlay cache])
  else (s, [])

/-- Trace events: key events, the hold timer firing, the close button calling
`closeShortcutModal`, and the overlay being hidden externally (observed via
the `hidden` class by the MutationObserver). -/
inductive Ev where
  | keydown (altKey : Bool) (key : String) (focusInText : Bool)
  | keyup (altKey : Bool)
  | timerFires
  | closeButton
  | externalHide
deriving DecidableEq

/-- One step of the event-driven execution. -/
def step (cache : List ShortcutDef) (s : KState) : Ev → KState × List Effect
  | Ev.keydown a k f => keydownStep cache s a k f
  | Ev.keyup a => keyupStep s a
  | Ev.timerFires => timerFiresStep cache s
  | Ev.closeButton => (closeShortcutModal s, [])
  | Ev.externalHide => (observerReset s, [])

/-- Run a trace of events from a state, collecting all emitted effects. -/
def run (cache : List ShortcutDef) (s : KState) : List Ev → KState × List Effect
  | [] => (s, [])
  | e :: es =>
    let r := step cache s e
    let r2 := run cache r.1 es
    (r2.1, r.2 ++ r2.2)

/-- Number of overlay-show effects in an effect list. -/
def countShows (effs : List Effect) : Nat :=
  effs.countP fun e => match e with | Effect.showOverlay _ => true | _ => false

/-- Number of timer-arm effects in an effect list. -/
def countArms (effs : List Effect) : Nat :=
  effs.countP fun e => match e with | Effect.armTimer => true | _ => false

/-- An event that is not a keydown carrying the Alt modifier (no new modifier
hold begins). -/
def noAltDown : Ev → Bool
  | Ev.keydown a _ _ => !a
  | _ => true

/-- The trace of an Alt hold that reaches the hold duration: the initial Alt
keydown with focus outside any text-entry element, the hold timer firing, and
then any number of auto-repeat keydown events of the held Alt key (each with
an arbitrary focus flag). -/
def altHoldTrace (reps : List Bool) : List Ev :=
  Ev.keydown true ("Alt") false :: Ev.timerFires ::
    reps.map fun f => Ev.keydown true ("Alt") f

/-- The amended timer invariant: whenever the `modifierHoldTimer` variable
holds a still-pending (not yet fired) timer, the modifier is recorded as held
and the modal is not shown. -/
def TimerInv (s : KState) : Prop :=
  s.timerVar = TimerVar.pending → s.activeModifier ≠ none ∧ s.modalShown = false

end ShortKey

namespace Charts

/-- The default palette `EChartsConfig.defaultColors`
(`horilla_charts.js` lines 4-11); it has 27 entries. -/
def defaultColors : List String :=
  ["#a5b4fc", "#fca5a5", "#fdba74", "#38bdf8", "#a7f3d0",
   "#c084fc", "#fb7185", "#60a5fa", "#5eead4", "#22d3ee",
   "#f8b4cb", "#b4d8ff", "#c7d2fe", "#fde68a",
   "#d1d5db", "#e879f9", "#94a3b8", "#fcd34d",
   "#86efac", "#f472b6", "#818cf8", "#fb923c",
   "#a78bfa", "#4ade80", "#f59e0b", "#ec4899", "#06b6d4"]

/-- Rendering of the hue `(len * 137.5) % 360` as JavaScript prints it inside
the template literal: the value is always a multiple of 0.5, tracked here in
half-degrees (`h2 = len * 275 mod 720`); whole numbers print without a decimal
point, halves with a trailing `.5`. -/
def halfDegString (h2 : Nat) : String :=
  if h2 % 2 = 0 then toString (h2 / 2) else toString (h2 / 2) ++ ".5"

/-- The generated color hsl-string pushed by `getDynamicColors` when the
palette runs out (`horilla_charts.js` lines 758-761), for current list length
`len`. -/
def hslColor (len : Nat) : String :=
  "hsl(" ++ halfDegString ((len * 275) % 720) ++ ", 70%, 60%)"

/-- The `while (colors.length < dataLength)` loop of `getDynamicColors`
(`horilla_charts.js` lines 758-761). -/
def extendColors (colors : List String) (dataLength : Nat) : List String :=
  if colors.length < dataLength then
    extendColors (colors ++ [hslColor colors.length]) dataLength
  else colors
termination_by dataLength - colors.length
decreasing_by simp [List.length_append]; omega

/-- `EChartsConfig.getDynamicColors` (`horilla_charts.js` lines 756-763):
copy the default palette, extend with generated hsl colors while shorter than
`dataLength`, then `slice(0, dataLength)`. -/
def getDynamicColors (dataLength : Nat) : List String :=
  (extendColors defaultColors dataLength).take dataLength

/-- Closed form of the colors appended by the `extendColors` loop: the `k`
generated hsl colors for list lengths `start, start+1, ...`. -/
def genFrom (start : Nat) : Nat → List String
  | 0 => []
  | Nat.succ k => hslColor start :: genFrom (start + 1) k

/-- One element of the `pieData` array built by `getPieChartOption`
(`horilla_charts.js` lines 135-139). -/
structure PieDatum where
  name : String
  value : Int
  url : Option String
deriving DecidableEq

/-- The `urls && urls[index] ? urls[index] : null` lookup: `null` when the
urls array is absent, the index out of range, or the entry an empty string. -/
def urlAt (urls : Option (List String)) (index : Nat) : Option String :=
  match urls with
  | none => none
  | some us =>
    let u := us.getD index ("")
    if u = "" then none else some u

/-- The `pieData` array of `getPieChartOption` / `getDonutChartOption`
(`horilla_charts.js` lines 135-139): one entry per label, with
`data[index] || 0` as value. -/
def pieDataOf (labels : List String) (data : List Int)
    (urls : Option (List String)) : List PieDatum :=
  labels.enum.map fun p =>
    { name := p.2, value := data.getD p.1 0, url := urlAt urls p.1 }

/-- One series of a stacked chart (`stackedData.series` elements). -/
structure StackedSeriesItem where
  name : String
  data : List Int
deriving DecidableEq

/-- The `stackedData` argument of the stacked chart builders. -/
structure StackedData where
  categories : List String
  series : List StackedSeriesItem
deriving DecidableEq

/-- The chart option value returned by the `EChartsConfig` builder functions.
Each constructor tags which builder produced the option; the `pie`/`donut`
constructors carry the computed `pieData` plus the `color` list and series
name, the remaining constructors carry the builder's arguments (their bodies
are fixed formatting templates over exactly those arguments). -/
inductive ChartOption where
  | pie (pieData : List PieDatum) (colors : List String) (labelField : String)
  | donut (pieData : List PieDatum) (colors : List String) (labelField : String)
  | bar (labels : List String) (data : List Int) (colors : List String)
      (labelField : String) (urls : Option (List String))
  | column (labels : List String) (data : List Int) (colors : List String)
      (labelField : String) (urls : Option (List String))
  | line (labels : List String) (data : List Int) (colors : List String)
      (labelField : String) (urls : Option (List String))
  | funnel (pieData : List PieDatum) (colors : List String) (labelField : String)
  | scatter (labels : List String) (data : List Int) (colors : List String)
      (labelField : String) (urls : Option (List String))
  | stackedVertical (sd : StackedData) (colors : List String)
      (labelField : String) (urls : Option (List String))
  | stackedHorizontal (sd : StackedData) (colors : List String)
      (labelField : String) (urls : Option (List String))
deriving DecidableEq

/-- `getPieChartOption` (`horilla_charts.js` lines 134-185). -/
def getPieChartOption (labels : List String) (data : List Int)
    (colors : List String) (labelField : String)
    (urls : Option (List String)) : ChartOption :=
  ChartOption.pie (pieDataOf labels data urls) colors labelField

/-- `getDonutChartOption` (`horilla_charts.js` lines 188-239). -/
def getDonutChartOption (labels : List String) (data : List Int)
    (colors : List String) (labelField : String)
    (urls : Option (List String)) : ChartOption :=
  ChartOption.donut (pieDataOf labels data urls) colors labelField

/-- `getBarChartOption` (`horilla_charts.js` lines 297-349). -/
def getBarChartOption (labels : List String) (data : List Int)
    (colors : List String) (labelField : String)
    (urls : Option (List String)) : ChartOption :=
  ChartOption.bar labels data colors labelField urls

/-- `getColumnChartOption` (`horilla_charts.js` lines 242-294). -/
def getColumnChartOption (labels : List String) (data : List Int)
    (colors : List String) (labelField : String)
    (urls : Option (List String)) : ChartOption :=
  ChartOption.column labels data colors labelField urls

/-- `getLineChartOption` (`horilla_charts.js` lines 352-407). -/
def getLineChartOption (labels : List String) (data : List Int)
    (colors : List String) (labelField : String)
    (urls : Option (List String)) : ChartOption :=
  ChartOption.line labels data colors labelField urls

/-- `getFunnelChartOption` (`horilla_charts.js` lines 410-468); its
`funnelData` is computed exactly like `pieData`. -/
def getFunnelChartOption (labels : List String) (data : List Int)
    (colors : List String) (labelField : String)
    (urls : Option (List String)) : ChartOption :=
  ChartOption.funnel (pieDataOf labels data urls) colors labelField

/-- `getScatterChartOption` (`horilla_charts.js` lines 471-524). -/
def getScatterChartOption (labels : List String) (data : List Int)
    (colors : List String) (labelField : String)
    (urls : Option (List String)) : ChartOption :=
  ChartOption.scatter labels data colors labelField urls

/-- `getStackedVerticalChartOption` (`horilla_charts.js` lines 527-586): falls
back to a column chart over `['No Data']`/`[0]` when the stacked data is
absent or has no series (the `categories`/`series` fields are always present
in this embedding, so only absence and emptiness remain of the JS check). -/
def getStackedVerticalChartOption (sd : Option StackedData)
    (colors : List String) (labelField : String)
    (urls : Option (List String)) : ChartOption :=
  match sd with
  | none => getColumnChartOption (["No Data"]) ([0]) colors labelField none
  | some d =>
    if d.series.length = 0 then
      getColumnChartOption (["No Data"]) ([0]) colors labelField none
    else ChartOption.stackedVertical d colors labelField urls

/-- `getStackedHorizontalChartOption` (the horizontal counterpart, falling
back to a bar chart). -/
def getStackedHorizontalChartOption (sd : Option StackedData)
    (colors : List String) (labelField : String)
    (urls : Option (List String)) : ChartOption :=
  match sd with
  | none => getBarChartOption (["No Data"]) ([0]) colors labelField none
  | some d =>
    if d.series.length = 0 then
      getBarChartOption (["No Data"]) ([0]) colors labelField none
    else ChartOption.stackedHorizontal d colors labelField urls

/-- The configuration object destructured by `getChartOption`
(`horilla_charts.js` line 43). -/
structure ChartConfig where
  type : String
  labels : List String
  data : List Int
  colors : Option (List String)
  labelField : String
  stackedData : Option StackedData
  hasMultipleGroups : Bool
  urls : Option (List String)

/-- The color resolution `colors && colors.length > 0 ? colors :
this.defaultColors` (`horilla_charts.js` line 44). -/
def resolveColors (colors : Option (List String)) : List String :=
  match colors with
  | some cs => if cs.length > 0 then cs else defaultColors
  | none => defaultColors

/-- `EChartsConfig.getChartOption` (`horilla_charts.js` lines 42-74): the
`switch (type.toLowerCase())` dispatch, written as the sequential comparison
a JS switch performs; the default case returns a pie chart option. -/
def getChartOption (config : ChartConfig) : ChartOption :=
  let chartColors := resolveColors config.colors
  let t := jsLower config.type
  if t = "pie" then
    getPieChartOption config.labels config.data chartColors config.labelField config.urls
  else if t = "donut" then
    getDonutChartOption config.labels config.data chartColors config.labelField config.urls
  else if t = "bar" then
    getBarChartOption config.labels config.data chartColors config.labelField config.urls
  else if t = "column" then
    getColumnChartOption config.labels config.data chartColors config.labelField config.urls
  else if t = "line" then
    getLineChartOption config.labels config.data chartColors config.labelField config.urls
  else if t = "funnel" then
    getFunnelChartOption config.labels config.data chartColors config.labelField config.urls
  else if t = "scatter" then
    getScatterChartOption config.labels config.data chartColors config.labelField config.urls
  else if t = "stacked_vertical" then
    if config.hasMultipleGroups = true then
      getStackedVerticalChartOption config.stackedData chartColors config.labelField config.urls
    else
      getColumnChartOption config.labels config.data chartColors config.labelField config.urls
  else if t = "stacked_horizontal" then
    if config.hasMultipleGroups = true then
      getStackedHorizontalChartOption config.stackedData chartColors config.labelField config.urls
    else
      getBarChartOption config.labels config.data chartColors config.labelField config.urls
  else
    getPieChartOption config.labels config.data chartColors config.labelField config.urls

end Charts

/-! ## Helper lemmas -/

theorem char_toUpper_idem (c : Char) : Char.toUpper (Char.toUpper c) = Char.toUpper c := by
  unfold Char.toUpper
  by_cases h : c.toNat ≥ 97 ∧ c.toNat ≤ 122
  · simp only [if_pos h]
    have hvalid : Nat.isValidChar (c.toNat - 32) := Or.inl (by omega)
    have hval : (Char.ofNat (c.toNat - 32)).toNat = c.toNat - 32 := by
      rw [Char.ofNat, dif_pos hvalid]
      rfl
    rw [if_neg (by omega)]
  · simp only [if_neg h]

theorem char_toLower_idem (c : Char) : Char.toLower (Char.toLower c) = Char.toLower c := by
  unfold Char.toLower
  by_cases h : c.toNat ≥ 65 ∧ c.toNat ≤ 90
  · simp only [if_pos h]
    have hvalid : Nat.isValidChar (c.toNat + 32) := Or.inl (by omega)
    have hval : (Char.ofNat (c.toNat + 32)).toNat = c.toNat + 32 := by
      rw [Char.ofNat, dif_pos hvalid]
      rfl
    rw [if_neg (by omega)]
  · simp only [if_neg h]

theorem jsUpper_idem (s : String) : jsUpper (jsUpper s) = jsUpper s := by
  have h : Char.toUpper ∘ Char.toUpper = Char.toUpper := funext char_toUpper_idem
  simp [jsUpper, List.map_map, h]

theorem jsLower_idem (s : String) : jsLower (jsLower s) = jsLower s := by
  have h : Char.toLower ∘ Char.toLower = Char.toLower := funext char_toLower_idem
  simp [jsLower, List.map_map, h]

namespace ShortKey

theorem clearHoldTimer_eq (s : KState) :
    clearHoldTimer s = { s with timerVar := TimerVar.null } := by
  cases s with
  | mk ms am tv =>
    unfold clearHoldTimer
    split_ifs with h
    · rfl
    · simp only [ne_eq, not_not] at h
      simp [h]

theorem closeShortcutModal_eq (s : KState) : closeShortcutModal s = initState := by
  unfold closeShortcutModal
  rw [clearHoldTimer_eq]
  rfl

theorem observerReset_eq (s : KState) : observerReset s = initState := by
  unfold observerReset
  rw [clearHoldTimer_eq]
  rfl

theorem run_cons (cache : List ShortcutDef) (s : KState) (e : Ev) (es : List Ev) :
    run cache s (e :: es) =
      ((run cache (step cache s e).1 es).1,
        (step cache s e).2 ++ (run cache (step cache s e).1 es).2) := rfl

end ShortKey

namespace ShortKey

theorem normalizeCatalog_shape {isMac : Bool} {raws : List RawShortcut} {x : ShortcutDef}
    (hx : x ∈ normalizeCatalog isMac raws) :
    x.key = jsUpper x.key ∧ x.command = jsLower x.command := by
  rcases List.mem_map.mp hx with ⟨r, _, rfl⟩
  constructor
  · show (normalizeShortcut isMac r).key = jsUpper (normalizeShortcut isMac r).key
    simp only [normalizeShortcut]
    exact (jsUpper_idem r.key).symm
  · show (normalizeShortcut isMac r).command = jsLower (normalizeShortcut isMac r).command
    simp only [normalizeShortcut]
    exact (jsLower_idem r.command).symm

theorem lookup_isSome_iff (cache : List ShortcutDef) (k : String)
    (hnorm : ∀ x ∈ cache, x.key = jsUpper x.key ∧ x.command = jsLower x.command) :
    (lookup cache k).isSome ↔ ∃ sk ∈ cache, ciEqKey sk.key k ∧ sk.command = "alt" := by
  unfold lookup
  rw [List.find?_isSome]
  constructor
  · rintro ⟨x, hx, hp⟩
    rw [Bool.and_eq_true, beq_iff_eq, beq_iff_eq] at hp
    refine ⟨x, hx, ?_, ?_⟩
    · unfold ciEqKey
      rw [hp.1, jsUpper_idem]
    · rw [(hnorm x hx).2, hp.2]
  · rintro ⟨x, hx, hci, hcmd⟩
    refine ⟨x, hx, ?_⟩
    rw [Bool.and_eq_true, beq_iff_eq, beq_iff_eq]
    refine ⟨?_, ?_⟩
    · rw [(hnorm x hx).1, hci]
    · rw [hcmd]
      decide

theorem keydownStep_arm (cache : List ShortcutDef) (s : KState) (k : String)
    (hmod : s.activeModifier = none) (hms : s.modalShown = false)
    (htv : s.timerVar = TimerVar.null) :
    keydownStep cache s true k false =
      ({ s with activeModifier := some ("alt"), timerVar := TimerVar.pending },
       [Effect.armTimer]) := by
  unfold keydownStep
  rw [if_pos ⟨rfl, hmod⟩, if_neg (by simp), if_pos ⟨hms, htv⟩]

theorem keydownStep_matched_focus (cache : List ShortcutDef) (s : KState)
    (k : String) (m : ShortcutDef)
    (hmod : s.activeModifier ≠ none) (hm : lookup cache k = some m) :
    keydownStep cache s true k true =
      ({ s with timerVar := TimerVar.null }, [Effect.preventDefault]) := by
  unfold keydownStep
  rw [if_neg (by simp [hmod]), if_pos ⟨hmod, rfl⟩]
  simp [hm, clearHoldTimer_eq]

theorem keydownStep_matched_nofocus (cache : List ShortcutDef) (s : KState)
    (k : String) (m : ShortcutDef)
    (hmod : s.activeModifier ≠ none) (hm : lookup cache k = some m) :
    keydownStep cache s true k false =
      (initState, [Effect.preventDefault, Effect.navigate (mkNavTarget m)]) := by
  unfold keydownStep
  rw [if_neg (by simp [hmod]), if_pos ⟨hmod, rfl⟩]
  simp only [hm, closeShortcutModal_eq]
  rw [if_neg (by simp)]

theorem keydownStep_nomatch (cache : List ShortcutDef) (s : KState)
    (k : String) (f : Bool)
    (hmod : s.activeModifier ≠ none) (hm : lookup cache k = none) :
    keydownStep cache s true k f = ({ s with timerVar := TimerVar.null }, []) := by
  unfold keydownStep
  rw [if_neg (by simp [hmod]), if_pos ⟨hmod, rfl⟩]
  simp only [hm, clearHoldTimer_eq]

end ShortKey

namespace ShortKey

theorem timerInv_keydown (cache : List ShortcutDef) (s : KState)
    (a : Bool) (k : String) (f : Bool) (h : TimerInv s) :
    TimerInv (keydownStep cache s a k f).1 := by
  unfold TimerInv at *
  unfold keydownStep
  by_cases h1 : a = true ∧ s.activeModifier = none
  · rw [if_pos h1]
    by_cases h2 : f = true
    · rw [if_pos h2]
      intro hp
      simp only at hp
      exact ⟨by simp, (h hp).2⟩
    · rw [if_neg h2]
      by_cases h3 : ({ s with activeModifier := some ("alt") } : KState).modalShown = false ∧
          ({ s with activeModifier := some ("alt") } : KState).timerVar = TimerVar.null
      · rw [if_pos h3]
        intro _
        exact ⟨by simp, h3.1⟩
      · rw [if_neg h3]
        intro hp
        simp only at hp
        exact ⟨by simp, (h hp).2⟩
  · rw [if_neg h1]
    by_cases h2 : s.activeModifier ≠ none ∧ a = true
    · rw [if_pos h2]
      cases hm : lookup cache k with
      | none =>
        simp only [hm]
        intro hp
        simp [clearHoldTimer_eq] at hp
      | some m =>
        by_cases h3 : f = true
        · simp only [hm, if_pos h3]
          intro hp
          simp [clearHoldTimer_eq] at hp
        · simp only [hm, if_neg h3]
          intro hp
          simp [closeShortcutModal_eq, initState] at hp
    · rw [if_neg h2]
      exact h

theorem timerInv_step (cache : List ShortcutDef) (s : KState) (e : Ev)
    (h : TimerInv s) : TimerInv (step cache s e).1 := by
  cases e with
  | keydown a k f =>
    simp only [step]
    exact timerInv_keydown cache s a k f h
  | keyup a =>
    unfold TimerInv at *
    simp only [step]
    unfold keyupStep
    by_cases h1 : a = false ∧ s.activeModifier = some ("alt")
    · rw [if_pos h1]
      intro hp
      simp at hp
    · rw [if_neg h1]
      exact h
  | timerFires =>
    unfold TimerInv at *
    simp only [step]
    unfold timerFiresStep
    by_cases h1 : s.timerVar = TimerVar.pending
    · rw [if_pos h1]
      intro hp
      simp at hp
    · rw [if_neg h1]
      exact h
  | closeButton =>
    unfold TimerInv
    simp only [step]
    intro hp
    simp [closeShortcutModal_eq, initState] at hp
  | externalHide =>
    unfold TimerInv
    simp only [step]
    intro hp
    simp [observerReset_eq, initState] at hp

theorem timerInv_run (cache : List ShortcutDef) :
    ∀ (evs : List Ev) (s : KState), TimerInv s → TimerInv (run cache s evs).1 := by
  intro evs
  induction evs with
  | nil =>
    intro s h
    exact h
  | cons e es ih =>
    intro s h
    rw [run_cons]
    exact ih _ (timerInv_step cache s e h)

theorem step_quiet (cache : List ShortcutDef) (e : Ev) (he : noAltDown e = true) :
    step cache initState e = (initState, []) := by
  cases e with
  | keydown a k f =>
    have ha : a = false := by simpa [noAltDown] using he
    subst ha
    simp only [step]
    unfold keydownStep
    rw [if_neg (by simp), if_neg (by simp)]
  | keyup a =>
    simp only [step]
    unfold keyupStep
    rw [if_neg (by simp [initState])]
  | timerFires =>
    simp only [step]
    unfold timerFiresStep
    rw [if_neg (by simp [initState])]
  | closeButton =>
    simp only [step]
    rw [closeShortcutModal_eq]
  | externalHide =>
    simp only [step]
    rw [observerReset_eq]

theorem run_quiet (cache : List ShortcutDef) :
    ∀ (evs : List Ev), (∀ e ∈ evs, noAltDown e = true) →
      run cache initState evs = (initState, []) := by
  intro evs
  induction evs with
  | nil =>
    intro _
    rfl
  | cons e es ih =>
    intro h
    rw [run_cons, step_quiet cache e (h e (List.mem_cons_self e es))]
    rw [ih fun e' he' => h e' (List.mem_cons_of_mem e he')]
    rfl

theorem repStep (cache : List ShortcutDef) (tv : TimerVar) (f : Bool)
    (h : lookup cache ("Alt") = none) :
    keydownStep cache ⟨true, some ("alt"), tv⟩ true ("Alt") f =
      (⟨true, some ("alt"), TimerVar.null⟩, []) := by
  have hx := keydownStep_nomatch cache ⟨true, some ("alt"), tv⟩ ("Alt") f (by simp) h
  simpa using hx

theorem run_reps (cache : List ShortcutDef) (h : lookup cache ("Alt") = none) :
    ∀ (reps : List Bool) (tv : TimerVar),
      (run cache ⟨true, some ("alt"), tv⟩
        (reps.map fun f => Ev.keydown true ("Alt") f)).2 = [] := by
  intro reps
  induction reps with
  | nil =>
    intro tv
    rfl
  | cons f fs ih =>
    intro tv
    have hs : step cache ⟨true, some ("alt"), tv⟩ (Ev.keydown true ("Alt") f) =
        (⟨true, some ("alt"), TimerVar.null⟩, []) := repStep cache tv f h
    rw [List.map_cons, run_cons, hs]
    simpa using ih TimerVar.null

theorem step_arm_from_init (cache : List ShortcutDef) :
    step cache initState (Ev.keydown true ("Alt") false) =
      (⟨false, some ("alt"), TimerVar.pending⟩, [Effect.armTimer]) := by
  have hx := keydownStep_arm cache initState ("Alt") rfl rfl rfl
  simpa using hx

theorem step_timer_fires (cache : List ShortcutDef) :
    step cache ⟨false, some ("alt"), TimerVar.pending⟩ Ev.timerFires =
      (⟨true, some ("alt"), TimerVar.fired⟩, [Effect.showOverlay cache]) := by
  simp [step, timerFiresStep]

end ShortKey

namespace Charts

theorem defaultColors_length : defaultColors.length = 27 := rfl

theorem genFrom_length : ∀ (k start : Nat), (genFrom start k).length = k := by
  intro k
  induction k with
  | zero =>
    intro start
    rfl
  | succ k ih =>
    intro start
    simp [genFrom, ih]

theorem genFrom_getElem? :
    ∀ (k start j : Nat), j < k → (genFrom start k)[j]? = some (hslColor (start + j)) := by
  intro k
  induction k with
  | zero =>
    intro start j h
    exact absurd h (Nat.not_lt_zero j)
  | succ k ih =>
    intro start j h
    cases j with
    | zero => simp [genFrom]
    | succ j =>
      show (genFrom start (k + 1))[j + 1]? = _
      simp only [genFrom, List.getElem?_cons_succ]
      rw [ih (start + 1) j (by omega)]
      have harg : start + 1 + j = start + (j + 1) := by omega
      rw [harg]

theorem extendColors_eq_aux :
    ∀ (k : Nat) (colors : List String) (n : Nat), n - colors.length = k →
      extendColors colors n = colors ++ genFrom colors.length k := by
  intro k
  induction k with
  | zero =>
    intro colors n hk
    have hnot : ¬ colors.length < n := by omega
    unfold extendColors
    rw [if_neg hnot]
    simp [genFrom]
  | succ k ih =>
    intro colors n hk
    have hlt : colors.length < n := by omega
    unfold extendColors
    rw [if_pos hlt]
    rw [ih (colors ++ [hslColor colors.length]) n
      (by simp only [List.length_append, List.length_cons, List.length_nil]; omega)]
    simp [genFrom, List.append_assoc]

theorem extendColors_eq (colors : List String) (n : Nat) :
    extendColors colors n = colors ++ genFrom colors.length (n - colors.length) :=
  extendColors_eq_aux _ colors n rfl

theorem getDynamicColors_eq (n : Nat) :
    getDynamicColors n = (defaultColors ++ genFrom 27 (n - 27)).take n := by
  unfold getDynamicColors
  rw [extendColors_eq, defaultColors_length]

end Charts

/-! ## Claim theorems -/

open ShortKey Charts

/-- Claim C1, counterexample: catalog `[Alt+D -> /dashboard]`, focus inside a
text input, Alt held (first event) and then `d` pressed (second event).  The
handler emits a `preventDefault` effect — the keystroke's default action is
suppressed, contradicting the claim that it passes through to the input
unchanged (the code calls `e.preventDefault()` at `short_key.js` line 189
before the focus guard at line 191). -/
theorem c1_counterexample :
    (run [⟨"D", "alt", "ALT", "ALT", "Dashboard", none, "", "/dashboard"⟩] initState
      [Ev.keydown true ("Alt") true, Ev.keydown true ("d") true]).2 =
      [Effect.preventDefault] := by decide

/-- Claim C1, amended: for every keydown carrying the held modifier plus a key
that matches a catalog entry, if focus is inside a text-entry element the
handler performs no overlay show and no navigation and leaves the modal and
modifier state unchanged, but it DOES suppress the event's default action
(`preventDefault` runs before the focus guard) and clears the pending
show-timer. -/
theorem c1_theorem (cache : List ShortcutDef) (s : KState) (k : String)
    (m : ShortcutDef) (hmod : s.activeModifier = some ("alt"))
    (hm : lookup cache k = some m) :
    (keydownStep cache s true k true).2 = [Effect.preventDefault] ∧
    (keydownStep cache s true k true).1.modalShown = s.modalShown ∧
    (keydownStep cache s true k true).1.activeModifier = s.activeModifier ∧
    (keydownStep cache s true k true).1.timerVar = TimerVar.null := by
  have hx := keydownStep_matched_focus cache s k m (by simp [hmod]) hm
  rw [hx]
  simp

/-- Claim C1 witness: the amended statement evaluated on the concrete
counterexample input. -/
theorem c1_witness :
    ((⟨false, some ("alt"), TimerVar.pending⟩ : KState).activeModifier = some ("alt")) ∧
    (lookup [⟨"D", "alt", "ALT", "ALT", "Dashboard", none, "", "/dashboard"⟩] ("d") =
      some ⟨"D", "alt", "ALT", "ALT", "Dashboard", none, "", "/dashboard"⟩) ∧
    ((keydownStep [⟨"D", "alt", "ALT", "ALT", "Dashboard", none, "", "/dashboard"⟩]
        ⟨false, some ("alt"), TimerVar.pending⟩ true ("d") true).2 =
      [Effect.preventDefault] ∧
      (keydownStep [⟨"D", "alt", "ALT", "ALT", "Dashboard", none, "", "/dashboard"⟩]
        ⟨false, some ("alt"), TimerVar.pending⟩ true ("d") true).1.modalShown =
        (⟨false, some ("alt"), TimerVar.pending⟩ : KState).modalShown ∧
      (keydownStep [⟨"D", "alt", "ALT", "ALT", "Dashboard", none, "", "/dashboard"⟩]
        ⟨false, some ("alt"), TimerVar.pending⟩ true ("d") true).1.activeModifier =
        (⟨false, some ("alt"), TimerVar.pending⟩ : KState).activeModifier ∧
      (keydownStep [⟨"D", "alt", "ALT", "ALT", "Dashboard", none, "", "/dashboard"⟩]
        ⟨false, some ("alt"), TimerVar.pending⟩ true ("d") true).1.timerVar =
        TimerVar.null) :=
  ⟨by decide, by decide,
    c1_theorem [⟨"D", "alt", "ALT", "ALT", "Dashboard", none, "", "/dashboard"⟩]
      ⟨false, some ("alt"), TimerVar.pending⟩ ("d")
      ⟨"D", "alt", "ALT", "ALT", "Dashboard", none, "", "/dashboard"⟩
      (by decide) (by decide)⟩

/-- Claim C2: for every catalog (as produced by the fetch normalization) and
every pressed key `k` while the modifier (always `alt` in this code) is held,
the keydown handler's lookup returns a match iff the catalog contains an entry
whose key equals `k` case-insensitively and whose modifier (`command`) equals
`alt` exactly. -/
theorem c2_theorem (isMac : Bool) (raws : List RawShortcut) (k : String) :
    (lookup (normalizeCatalog isMac raws) k).isSome ↔
      ∃ sk ∈ normalizeCatalog isMac raws, ciEqKey sk.key k ∧ sk.command = "alt" :=
  lookup_isSome_iff (normalizeCatalog isMac raws) k fun _ hx => normalizeCatalog_shape hx

/-- Claim C3, counterexample: hold Alt (focus outside text entry) and let the
hold timer fire.  In the resulting reachable state the `modifierHoldTimer`
variable is still non-null (`showShortcutModal` never nulls it) while
`modalShown` is true — refuting the claim that the variable is non-null only
while the modal is not visible. -/
theorem c3_counterexample :
    (run [] initState [Ev.keydown true ("Alt") false, Ev.timerFires]).1.timerVar ≠
      TimerVar.null ∧
    (run [] initState [Ev.keydown true ("Alt") false, Ev.timerFires]).1.modalShown =
      true := by decide

/-- Claim C3, amended: in every state reachable from the initial state by any
sequence of key events, timer firings and close/hide actions, the
`modifierHoldTimer` variable holds a PENDING (not yet fired) timer only while
`activeModifier` is set and `modalShown` is false.  (As stated, with "non-null"
instead of "pending", the claim fails because the fired timer id is left in
the variable.) -/
theorem c3_theorem (cache : List ShortcutDef) (evs : List Ev) :
    (run cache initState evs).1.timerVar = TimerVar.pending →
      (run cache initState evs).1.activeModifier ≠ none ∧
      (run cache initState evs).1.modalShown = false := by
  have h := timerInv_run cache evs initState (by intro hp; exact absurd hp (by decide))
  exact h

/-- Claim C3 witness: the amended invariant evaluated on a concrete reachable
state with a pending timer. -/
theorem c3_witness :
    (run [] initState [Ev.keydown true ("Alt") false]).1.timerVar = TimerVar.pending ∧
    ((run [] initState [Ev.keydown true ("Alt") false]).1.activeModifier ≠ none ∧
      (run [] initState [Ev.keydown true ("Alt") false]).1.modalShown = false) :=
  ⟨by decide, c3_theorem [] [Ev.keydown true ("Alt") false] (by decide)⟩

/-- Claim C4: closing the overlay by any mechanism — the close button calling
`closeShortcutModal`, or the overlay being hidden externally (the observer
reset) — always yields the reset state (`modalShown = false`,
`activeModifier = none`, timer variable null, i.e. `initState`), and from that
state any sequence of events containing no Alt keydown produces no effects at
all (in particular no overlay show) and stays in the reset state. -/
theorem c4_theorem (cache : List ShortcutDef) (s : KState) (evs : List Ev)
    (h : ∀ e ∈ evs, noAltDown e = true) :
    closeShortcutModal s = initState ∧
    observerReset s = initState ∧
    run cache initState evs = (initState, []) ∧
    countShows (run cache initState evs).2 = 0 := by
  refine ⟨closeShortcutModal_eq s, observerReset_eq s, run_quiet cache evs h, ?_⟩
  rw [run_quiet cache evs h]
  rfl

/-- Claim C4 witness: the reset-and-stay-quiet property evaluated on a
concrete state and a concrete Alt-free event sequence. -/
theorem c4_witness :
    (∀ e ∈ [Ev.keyup false, Ev.timerFires, Ev.closeButton], noAltDown e = true) ∧
    (closeShortcutModal ⟨true, some ("alt"), TimerVar.pending⟩ = initState ∧
      observerReset ⟨true, some ("alt"), TimerVar.pending⟩ = initState ∧
      run [] initState [Ev.keyup false, Ev.timerFires, Ev.closeButton] = (initState, []) ∧
      countShows (run [] initState [Ev.keyup false, Ev.timerFires, Ev.closeButton]).2 = 0) :=
  ⟨by decide,
    c4_theorem [] ⟨true, some ("alt"), TimerVar.pending⟩
      [Ev.keyup false, Ev.timerFires, Ev.closeButton] (by decide)⟩

/-- Claim C5: for every event sequence in which the modifier is pressed
outside a text-entry element and held until the hold timer fires with no
second keypress (only auto-repeat keydowns of the held Alt key, with arbitrary
focus flags, and assuming the catalog binds no shortcut to the Alt key
itself), the overlay is shown exactly once and the show-timer is armed exactly
once: repeated modifier-down events while held never arm a second timer or
show the overlay again. -/
theorem c5_theorem (cache : List ShortcutDef) (reps : List Bool)
    (h : lookup cache ("Alt") = none) :
    countShows (run cache initState (altHoldTrace reps)).2 = 1 ∧
    countArms (run cache initState (altHoldTrace reps)).2 = 1 := by
  unfold altHoldTrace
  rw [run_cons, step_arm_from_init, run_cons, step_timer_fires,
    run_reps cache h reps TimerVar.fired]
  constructor <;> rfl

/-- Claim C5 witness: the exactly-once property evaluated on a concrete
catalog and two auto-repeat events. -/
theorem c5_witness :
    (lookup [⟨"D", "alt", "ALT", "ALT", "Dashboard", none, "", "/dashboard"⟩] ("Alt") =
      none) ∧
    (countShows (run [⟨"D", "alt", "ALT", "ALT", "Dashboard", none, "", "/dashboard"⟩]
        initState (altHoldTrace [true, false])).2 = 1 ∧
      countArms (run [⟨"D", "alt", "ALT", "ALT", "Dashboard", none, "", "/dashboard"⟩]
        initState (altHoldTrace [true, false])).2 = 1) :=
  ⟨by decide,
    c5_theorem [⟨"D", "alt", "ALT", "ALT", "Dashboard", none, "", "/dashboard"⟩]
      [true, false] (by decide)⟩

/-- Claim C6: pressing a second key that matches the catalog (focus outside
text entry) before the hold timer fires cancels the pending timer — the run
ends in the reset state with a null timer variable and contains no overlay
show — and emits the navigation to the matched definition immediately. -/
theorem c6_theorem (cache : List ShortcutDef) (k : String) (m : ShortcutDef)
    (hm : lookup cache k = some m) :
    run cache initState [Ev.keydown true ("Alt") false, Ev.keydown true k false] =
      (initState,
        [Effect.armTimer, Effect.preventDefault, Effect.navigate (mkNavTarget m)]) ∧
    countShows (run cache initState
      [Ev.keydown true ("Alt") false, Ev.keydown true k false]).2 = 0 := by
  have h2 : step cache ⟨false, some ("alt"), TimerVar.pending⟩ (Ev.keydown true k false) =
      (initState, [Effect.preventDefault, Effect.navigate (mkNavTarget m)]) := by
    simp only [step]
    exact keydownStep_matched_nofocus cache _ k m (by simp) hm
  constructor
  · rw [run_cons, step_arm_from_init, run_cons, h2]
    rfl
  · rw [run_cons, step_arm_from_init, run_cons, h2]
    rfl

/-- Claim C6 witness: the immediate-navigation property evaluated on a
concrete catalog whose matched entry carries a section value. -/
theorem c6_witness :
    (lookup [⟨"D", "alt", "ALT", "ALT", "Dashboard", some ("emp"), "", "/dashboard"⟩]
      ("d") = some ⟨"D", "alt", "ALT", "ALT", "Dashboard", some ("emp"), "", "/dashboard"⟩) ∧
    (run [⟨"D", "alt", "ALT", "ALT", "Dashboard", some ("emp"), "", "/dashboard"⟩]
        initState [Ev.keydown true ("Alt") false, Ev.keydown true ("d") false] =
      (initState,
        [Effect.armTimer, Effect.preventDefault,
          Effect.navigate (mkNavTarget
            ⟨"D", "alt", "ALT", "ALT", "Dashboard", some ("emp"), "", "/dashboard"⟩)]) ∧
      countShows (run [⟨"D", "alt", "ALT", "ALT", "Dashboard", some ("emp"), "", "/dashboard"⟩]
        initState [Ev.keydown true ("Alt") false, Ev.keydown true ("d") false]).2 = 0) :=
  ⟨by decide,
    c6_theorem [⟨"D", "alt", "ALT", "ALT", "Dashboard", some ("emp"), "", "/dashboard"⟩]
      ("d") ⟨"D", "alt", "ALT", "ALT", "Dashboard", some ("emp"), "", "/dashboard"⟩
      (by decide)⟩

/-- Claim C7: a failing refresh leaves the in-memory catalog at its previous
value, and a failing initial fetch leaves it at the initial empty value set
just before the fetch (`window.shortcutKeysCache = []`, line 69) — so key
handling continues on the last cached snapshot; errors are only logged. -/
theorem c7_theorem (isMac : Bool) (msg : String) (prev : List ShortcutDef) :
    refreshShortcutKeys isMac prev (Except.error msg) = prev ∧
    cacheAfterInitFetch isMac (Except.error msg) = initialShortcutKeysCache := by
  constructor <;> rfl

/-- Claim C8: on a matched shortcut (modifier held, focus outside text entry)
the handler emits the navigation whose target is built from the definition's
`page`, with the `section` value attached as the query parameter exactly when
the definition's section field is present and non-empty, and omitted
otherwise. -/
theorem c8_theorem (cache : List ShortcutDef) (s : KState) (k : String)
    (m : ShortcutDef) (hmod : s.activeModifier = some ("alt"))
    (hm : lookup cache k = some m) :
    (keydownStep cache s true k false).2 =
      [Effect.preventDefault, Effect.navigate (mkNavTarget m)] ∧
    (mkNavTarget m).page = m.page ∧
    (∀ v : String, (mkNavTarget m).sectionParam = some v ↔ (m.section_ = some v ∧ v ≠ "")) := by
  refine ⟨?_, rfl, ?_⟩
  · rw [keydownStep_matched_nofocus cache s k m (by simp [hmod]) hm]
  · intro v
    unfold mkNavTarget
    cases hs : m.section_ with
    | none => simp
    | some s0 =>
      by_cases h0 : s0 = ""
      · subst h0
        simp
        exact fun hv => hv.symm
      · simp only [if_neg h0, Option.some_inj]
        constructor
        · intro hv
          subst hv
          exact ⟨rfl, h0⟩
        · rintro ⟨hv, _⟩
          exact hv

/-- Claim C8 witness: the navigation construction evaluated on a concrete
matched definition carrying a non-empty section. -/
theorem c8_witness :
    ((⟨false, some ("alt"), TimerVar.null⟩ : KState).activeModifier = some ("alt")) ∧
    (lookup [⟨"D", "alt", "ALT", "ALT", "Dashboard", some ("emp"), "", "/dashboard"⟩]
      ("d") = some ⟨"D", "alt", "ALT", "ALT", "Dashboard", some ("emp"), "", "/dashboard"⟩) ∧
    ((keydownStep [⟨"D", "alt", "ALT", "ALT", "Dashboard", some ("emp"), "", "/dashboard"⟩]
        ⟨false, some ("alt"), TimerVar.null⟩ true ("d") false).2 =
      [Effect.preventDefault,
        Effect.navigate (mkNavTarget
          ⟨"D", "alt", "ALT", "ALT", "Dashboard", some ("emp"), "", "/dashboard"⟩)] ∧
      (mkNavTarget ⟨"D", "alt", "ALT", "ALT", "Dashboard", some ("emp"), "", "/dashboard"⟩).page =
        (⟨"D", "alt", "ALT", "ALT", "Dashboard", some ("emp"), "", "/dashboard"⟩ : ShortcutDef).page ∧
      (∀ v : String,
        (mkNavTarget ⟨"D", "alt", "ALT", "ALT", "Dashboard", some ("emp"), "", "/dashboard"⟩).sectionParam =
            some v ↔
          ((⟨"D", "alt", "ALT", "ALT", "Dashboard", some ("emp"), "", "/dashboard"⟩ : ShortcutDef).section_ =
            some v ∧ v ≠ ""))) :=
  ⟨by decide, by decide,
    c8_theorem [⟨"D", "alt", "ALT", "ALT", "Dashboard", some ("emp"), "", "/dashboard"⟩]
      ⟨false, some ("alt"), TimerVar.null⟩ ("d")
      ⟨"D", "alt", "ALT", "ALT", "Dashboard", some ("emp"), "", "/dashboard"⟩
      (by decide) (by decide)⟩

/-- Claim C9: for every `n`, `getDynamicColors n` returns exactly `n` color
strings; its first `min n 27` elements are the default palette in order (the
palette has 27 entries); and every element at an index `i` with
`27 ≤ i < n` is the generated hsl string for that index. -/
theorem c9_theorem (n : Nat) :
    (getDynamicColors n).length = n ∧
    (getDynamicColors n).take (min n 27) = defaultColors.take (min n 27) ∧
    (∀ i : Nat, 27 ≤ i → i < n → (getDynamicColors n)[i]? = some (hslColor i)) := by
  refine ⟨?_, ?_, ?_⟩
  · rw [getDynamicColors_eq, List.length_take, List.length_append,
      defaultColors_length, genFrom_length]
    omega
  · rw [getDynamicColors_eq, List.take_take]
    have hmin : min (min n 27) n = min n 27 := by omega
    rw [hmin]
    exact List.take_append_of_le_length (by rw [defaultColors_length]; omega)
  · intro i h27 hn
    rw [getDynamicColors_eq, List.getElem?_take_of_lt hn,
      List.getElem?_append_right (by rw [defaultColors_length]; omega),
      defaultColors_length, genFrom_getElem? _ _ _ (by omega)]
    have harg : 27 + (i - 27) = i := by omega
    rw [harg]

/-- Claim C9 witness: the generated-tail property evaluated at `n = 30`,
index 27. -/
theorem c9_witness :
    27 ≤ 27 ∧ 27 < 30 ∧ (getDynamicColors 30)[27]? = some (hslColor 27) :=
  ⟨by decide, by decide, (c9_theorem 30).2.2 27 (by decide) (by decide)⟩

/-- Claim C10: for every chart config whose lowercased type string is none of
the nine recognized values, `getChartOption` returns exactly
`getPieChartOption` applied to the config's labels, data, resolved colors
(the config's colors when non-empty, else the default palette), labelField
and urls. -/
theorem c10_theorem (config : ChartConfig)
    (h : jsLower config.type ∉
      (["pie", "donut", "bar", "column", "line", "funnel", "scatter",
        "stacked_vertical", "stacked_horizontal"] : List String)) :
    getChartOption config =
      getPieChartOption config.labels config.data (resolveColors config.colors)
        config.labelField config.urls := by
  simp only [getChartOption]
  rw [if_neg (fun hc => h (by rw [hc]; decide)),
    if_neg (fun hc => h (by rw [hc]; decide)),
    if_neg (fun hc => h (by rw [hc]; decide)),
    if_neg (fun hc => h (by rw [hc]; decide)),
    if_neg (fun hc => h (by rw [hc]; decide)),
    if_neg (fun hc => h (by rw [hc]; decide)),
    if_neg (fun hc => h (by rw [hc]; decide)),
    if_neg (fun hc => h (by rw [hc]; decide)),
    if_neg (fun hc => h (by rw [hc]; decide))]

/-- Claim C10 witness: the default-branch dispatch evaluated on a concrete
config with the unrecognized type string `gauge`. -/
theorem c10_witness :
    (jsLower (⟨"gauge", ["a"], [1], none, "count", none, false, none⟩ : ChartConfig).type ∉
      (["pie", "donut", "bar", "column", "line", "funnel", "scatter",
        "stacked_vertical", "stacked_horizontal"] : List String)) ∧
    getChartOption (⟨"gauge", ["a"], [1], none, "count", none, false, none⟩ : ChartConfig) =
      getPieChartOption
        (⟨"gauge", ["a"], [1], none, "count", none, false, none⟩ : ChartConfig).labels
        (⟨"gauge", ["a"], [1], none, "count", none, false, none⟩ : ChartConfig).data
        (resolveColors (⟨"gauge", ["a"], [1], none, "count", none, false, none⟩ : ChartConfig).colors)
        (⟨"gauge", ["a"], [1], none, "count", none, false, none⟩ : ChartConfig).labelField
        (⟨"gauge", ["a"], [1], none, "count", none, false, none⟩ : ChartConfig).urls :=
  ⟨by decide,
    c10_theorem (⟨"gauge", ["a"], [1], none, "count", none, false, none⟩ : ChartConfig)
      (by decide)⟩
